import Mathlib

/-
Verification of the nenupy parset pipeline (nenupy/observation/parset.py).

Shallow embedding conventions:
* Python strings are modelled as lists of characters (Str := List Char) so that
  every operation is a structural, kernel-computable Lean function; the helpers
  below reproduce the exact semantics of the Python string methods used by the
  source (split with and without maxsplit, lower, rstrip, isdigit, in).
* Python dicts are modelled as insertion-ordered association lists; overwriting
  an existing key keeps its position, new keys are appended (CPython semantics).
* Python floats are modelled as exact rationals (Rat); rounding of IEEE floats
  is not modelled, no claim below depends on it.
* Python exceptions are modelled with Except PyError; a constructor names the
  Python exception class that the corresponding source line can raise.
* astropy Time/TimeDelta values are modelled as rational epoch seconds; the
  astropy coordinate engine (frame transforms, ephemerides) is an external
  collaborator and is modelled as an explicit CoordService record of functions
  evaluated at the observation mid-time.
-/

deriving instance DecidableEq for Except

/- The Batteries rational arithmetic is marked irreducible, which blocks the
kernel evaluation that the concrete-input theorems below rely on; restore the
default reducibility of the arithmetic operations. -/
set_option allowUnsafeReducibility true in
attribute [semireducible] Rat.add Rat.mul Rat.sub Rat.div Rat.neg Rat.inv Rat.ofScientific

namespace NenuParset

abbrev Str := List Char

inductive PyError where
  | keyError
  | valueError
  | indexError
  | nameError
  | attributeError
deriving DecidableEq

/-- Does the first list occur as a prefix of the second? (Bool-valued). -/
def isPrefixList : Str → Str → Bool
  | [], _ => true
  | _ :: _, [] => false
  | a :: as, b :: bs => a = b && isPrefixList as bs

/-- Worker for splitOnChars; the fuel starts at the length of the string, and
every step either consumes the separator (length at least one) or one char. -/
def splitOnCharsGo (sep : Str) : Nat → Str → Str → List Str
  | 0, cur, _ => [cur.reverse]
  | fuel + 1, cur, s =>
    match s with
    | [] => [cur.reverse]
    | c :: rest =>
      if isPrefixList sep s then
        cur.reverse :: splitOnCharsGo sep fuel [] (s.drop sep.length)
      else
        splitOnCharsGo sep fuel (c :: cur) rest

/-- Python str.split(sep) with a non-empty separator: split at every
non-overlapping leftmost occurrence; the empty string yields one empty chunk. -/
def splitOnChars (sep s : Str) : List Str :=
  splitOnCharsGo sep s.length [] s

/-- Python str.split(sep, 1): at most one split, the remainder is rejoined. -/
def pySplit1 (sep s : Str) : List Str :=
  match splitOnChars sep s with
  | [] => [s]
  | [x] => [x]
  | x :: rest => [x, List.intercalate sep rest]

/-- Python str.split() (no separator): split on whitespace runs, dropping empty
chunks.  The parameter strings handled by the source only contain spaces, so
splitting on the space character matches the Python behaviour. -/
def pySplitWs (s : Str) : List Str :=
  (splitOnChars [' '] s).filter (fun chunk => !chunk.isEmpty)

/-- Python str.lower(). -/
def toLowerStr (s : Str) : Str := s.map Char.toLower

/-- Python str.rstrip(): drop trailing whitespace. -/
def rstripStr (s : Str) : Str := (s.reverse.dropWhile Char.isWhitespace).reverse

/-- Python str.strip(). -/
def stripStr (s : Str) : Str :=
  ((s.dropWhile Char.isWhitespace).reverse.dropWhile Char.isWhitespace).reverse

/-- Python str.isdigit() (restricted to ASCII digits, the only ones the parset
grammar produces). -/
def isDigitStr (s : Str) : Bool := !s.isEmpty && s.all Char.isDigit

/-- Python "c in s" for a single character. -/
def containsChar (s : Str) (c : Char) : Bool := s.any (fun a => a == c)

/-- Python str.startswith. -/
def startsWithStr (pre s : Str) : Bool := isPrefixList pre s

/-- Digits to the natural number they denote (most significant first). -/
def digitsToNat (ds : Str) : Nat :=
  ds.foldl (fun acc c => acc * 10 + (c.toNat - ('0').toNat)) 0

/-- Python int(str): optional sign and whitespace around a digit run. -/
def pyIntOfStr? (s : Str) : Option Int :=
  let t := stripStr s
  match t with
  | '-' :: rest => if isDigitStr rest then some (-(digitsToNat rest : Int)) else none
  | '+' :: rest => if isDigitStr rest then some (digitsToNat rest : Int) else none
  | _ => if isDigitStr t then some (digitsToNat t : Int) else none

/-- Unsigned part of Python float(str): digits with an optional decimal point
(exponent forms are not used by any parset parameter string). -/
def parseUnsignedRat? (s : Str) : Option Rat :=
  let intPart := s.takeWhile Char.isDigit
  let rest := s.drop intPart.length
  match rest with
  | [] => if intPart.isEmpty then none else some (digitsToNat intPart : Rat)
  | '.' :: frac =>
    if frac.all Char.isDigit && (!intPart.isEmpty || !frac.isEmpty) then
      some ((digitsToNat intPart : Rat) + (digitsToNat frac : Rat) / (10 ^ frac.length))
    else none
  | _ => none

/-- Python float(str) for the decimal forms used in parameter strings. -/
def pyFloatOfStr? (s : Str) : Option Rat :=
  let t := stripStr s
  match t with
  | '-' :: rest => (parseUnsignedRat? rest).map (fun q => -q)
  | '+' :: rest => parseUnsignedRat? rest
  | _ => parseUnsignedRat? t

/-- A value held in a parsed parameter dictionary: strings come from k=v
tokens, True from bare flags, rationals only from the hard-coded
dynamic-spectrum defaults. -/
inductive ParamValue where
  | str (s : Str)
  | boolTrue
  | rat (q : Rat)
deriving DecidableEq

/-- Python truthiness of a parameter value. -/
def pyTruthy : ParamValue → Bool
  | ParamValue.str s => !s.isEmpty
  | ParamValue.boolTrue => true
  | ParamValue.rat q => decide (q ≠ 0)

/-- Python float(value) on a parameter value; a non-numeric string raises
ValueError. -/
def pyFloatOfParam : ParamValue → Except PyError Rat
  | ParamValue.str s =>
    match pyFloatOfStr? s with
    | some q => Except.ok q
    | none => Except.error PyError.valueError
  | ParamValue.boolTrue => Except.ok 1
  | ParamValue.rat q => Except.ok q

/-- Python int(value) on a parameter value. -/
def pyIntOfParam : ParamValue → Except PyError Int
  | ParamValue.str s =>
    match pyIntOfStr? s with
    | some n => Except.ok n
    | none => Except.error PyError.valueError
  | ParamValue.boolTrue => Except.ok 1
  | ParamValue.rat q => Except.ok (q.num.tdiv (q.den : Int))

/-- Python dict lookup (None when absent). -/
def dictGet? {α : Type} (d : List (Str × α)) (k : Str) : Option α :=
  (d.find? (fun p => p.1 == k)).map (fun p => p.2)

/-- Python dict write: an existing key keeps its position, a new key is
appended (insertion-order semantics of CPython dicts). -/
def dictInsert {α : Type} (d : List (Str × α)) (k : Str) (v : α) : List (Str × α) :=
  if d.any (fun p => p.1 == k) then
    d.map (fun p => if p.1 == k then (p.1, v) else p)
  else d ++ [(k, v)]

/-- Embeds _parse_parameters (parset.py lines 152-181): lowercase the string,
the mode is the text before the first colon; key=value tokens populate the
dictionary (split on "--" in pulsar mode, on whitespace otherwise), then bare
tokens taken from the "--" split are inserted as True flags, rstripped. -/
def parse_parameters (parameters : Str) (pulsar : Bool) : Str × List (Str × ParamValue) :=
  let ps := toLowerStr parameters
  let mode := (splitOnChars [':'] ps).headD []
  let eqParams := if pulsar then splitOnChars ['-', '-'] ps else pySplitWs ps
  let base := eqParams.foldl (fun d prm =>
      if containsChar prm '=' then
        dictInsert d ((splitOnChars ['='] prm).headD [])
          (ParamValue.str ((splitOnChars ['='] prm).getD 1 []))
      else d) []
  let configs := (splitOnChars ['-', '-'] ps).foldl (fun d prm =>
      if containsChar prm '=' then d
      else dictInsert d (rstripStr prm) ParamValue.boolTrue) base
  (mode, configs)

/-- A frequency interval of the output document, in MHz. -/
structure FreqInterval where
  gte : Rat
  lt : Rat
deriving DecidableEq

/-- SB_WIDTH = 195.3125 kHz, expressed in MHz. -/
def sbWidthMHz : Rat := 195.3125 / 1000

/-- Worker grouping a sequence into maximal runs whose consecutive difference
is exactly one (the effect of np.split at np.where(np.diff(l) != 1) + 1). -/
def groupConsecGo : List Int → Int → List Int → List (List Int)
  | [], _, cur => [cur.reverse]
  | x :: rest, prev, cur =>
    if x - prev = 1 then groupConsecGo rest x (x :: cur)
    else cur.reverse :: groupConsecGo rest x [x]

/-- np.split(l, np.where(np.diff(l) != 1)[0] + 1): an empty input produces one
empty chunk, exactly as np.split of an empty array at no indices does. -/
def splitConsecutive : List Int → List (List Int)
  | [] => [[]]
  | x :: rest => groupConsecGo rest x [x]

/-- Embeds _get_frequency_dict (parset.py lines 381-397) with the external
subband-to-frequency map sb2freq passed as a function returning MHz.  Each
group contributes the interval from the frequency of its minimum subband to
the frequency of its maximum subband plus one subband width; calling min on a
zero-size group raises ValueError, exactly as np.min does. -/
def get_frequency_dict (sb2freq : Int → Rat) (subband_list : List Int) :
    Except PyError (List FreqInterval) :=
  (splitConsecutive subband_list).mapM (fun group =>
    match group.min?, group.max? with
    | some mn, some mx => Except.ok { gte := sb2freq mn, lt := sb2freq mx + sbWidthMHz }
    | _, _ => Except.error PyError.valueError)

/-- Lexicographic order on parset version tuples, as Python compares tuples.
Versions are modelled with two components (a one-component Python version
string such as "0" is padded with a zero; no claim depends on the difference). -/
def versionLt (a b : Nat × Nat) : Bool :=
  Nat.blt a.1 b.1 || (a.1 == b.1 && Nat.blt a.2 b.2)

def versionGe (a b : Nat × Nat) : Bool := !versionLt a b

/-- The external astropy coordinate engine, evaluated at the fixed observation
mid-time (startTime + duration/2); treated as an exact, side-effect-free
collaborator.  altazToRadec takes (azimuth, elevation) in degrees to
(right ascension, declination) in degrees; solarRadec and solarAltaz give the
apparent equatorial and horizontal coordinates of a named solar-system body. -/
structure CoordService where
  altazToRadec : Rat → Rat → Rat × Rat
  radecToAltaz : Rat → Rat → Rat × Rat
  solarRadec : Str → Rat × Rat
  solarAltaz : Str → Rat × Rat

/-- The Property Store of an AnaBeam / Beam / PhaseCenter entity, restricted to
the fields the pointing-center resolver and the receiver dispatchers read.
Optional fields model keys that may be absent from the parset; azelFile is
true when the azelFile key is present.  Times are rational epoch seconds. -/
structure Beam where
  noBeam : Nat
  target : Str
  directionType : Str
  angle1 : Rat
  angle2 : Rat
  azelFile : Bool
  decal_az : Option Rat
  decal_el : Option Rat
  decal_ra : Option Rat
  decal_dec : Option Rat
  startTime : Rat
  duration : Rat
  toDo : Option Str
  parameters : Option Str
  subbandList : List Int
deriving DecidableEq

/-- The Output entity, restricted to the fields the receiver dispatchers read;
nri_receivers models output.get("nri_receivers", []). -/
structure Output where
  nri_receivers : List Str
  nri_channelization : Rat
  nri_dumpTime : Rat
  nri_subbandList : List Int
  xst_userfile : Bool
  xst_sbList : List Int
deriving DecidableEq

/-- The center dictionary returned by the resolver: ra/dec values in degrees
(None for an unresolvable direction) and the lowercase direction type used. -/
structure PointingCenter where
  ra : Option Rat
  dec : Option Rat
  obs_direction_type : Str
deriving DecidableEq

/-- Embeds the private _constrain_angle helper (parset.py lines 197-209):
clamp (not wrap) an angle to the closed interval from valmin to valmax. -/
def constrain_angle (angle valmin valmax : Rat) : Rat :=
  if angle < valmin then valmin
  else if angle > valmax then valmax
  else angle

/-- The direction-type dispatch of _get_pointing_center_dict (parset.py lines
194-361), after the azelFile override has been applied: dispatch on the
lowercased directionType; every decal offset defaults to zero when absent; the
coordinate-engine calls are the CoordService functions (the fixed mid-time at
which the source evaluates them is absorbed into the service).  Python
KeyError on a missing required field is absorbed by the Beam structure, which
carries the required fields totally. -/
def resolve_center_dispatch (svc : CoordService) (property : Beam) : PointingCenter :=
  let direction_type := toLowerStr property.directionType
  if direction_type = "j2000".data then
    let ra0 := property.angle1
    let dec0 := property.angle2
    let rd :=
      if property.decal_az.isSome || property.decal_el.isSome then
        let altaz := svc.radecToAltaz ra0 dec0
        svc.altazToRadec
          (constrain_angle (altaz.1 + property.decal_az.getD 0) 0 360)
          (constrain_angle (altaz.2 + property.decal_el.getD 0) 0 90)
      else (ra0, dec0)
    let decal_ra := property.decal_ra.getD 0
    let decal_dec := property.decal_dec.getD 0
    { ra := some (constrain_angle (rd.1 + decal_ra) 0 360),
      dec := some (constrain_angle (rd.2 + decal_dec) (-90) 90),
      obs_direction_type := toLowerStr property.directionType }
  else if direction_type = "azelgeo".data then
    let rd := svc.altazToRadec
        (constrain_angle (property.angle1 + property.decal_az.getD 0) 0 360)
        (constrain_angle (property.angle2 + property.decal_el.getD 0) 0 90)
    { ra := some (constrain_angle (rd.1 + property.decal_ra.getD 0) 0 360),
      dec := some (constrain_angle (rd.2 + property.decal_dec.getD 0) (-90) 90),
      obs_direction_type := toLowerStr property.directionType }
  else if direction_type = "azelgeo_azelfile".data then
    let rd := svc.altazToRadec 0 90
    { ra := some rd.1, dec := some rd.2,
      obs_direction_type := toLowerStr property.directionType }
  else if direction_type = "natif".data then
    { ra := none, dec := none, obs_direction_type := toLowerStr property.directionType }
  else
    let rd0 := svc.solarRadec direction_type
    let rd :=
      if property.decal_az.isSome || property.decal_el.isSome then
        let altaz := svc.solarAltaz direction_type
        svc.altazToRadec
          (constrain_angle (altaz.1 + property.decal_az.getD 0) 0 360)
          (constrain_angle (altaz.2 + property.decal_el.getD 0) 0 90)
      else rd0
    { ra := some (constrain_angle (rd.1 + property.decal_ra.getD 0) 0 360),
      dec := some (constrain_angle (rd.2 + property.decal_dec.getD 0) (-90) 90),
      obs_direction_type := toLowerStr property.directionType }

/-- The azelFile override that _get_pointing_center_dict applies before the
dispatch: an azelFile key overwrites the stored directionType. -/
def azelfile_override (property : Beam) : Beam :=
  if property.azelFile then { property with directionType := "azelgeo_azelfile".data }
  else property

def get_pointing_center_dict (svc : CoordService) (property : Beam) : PointingCenter :=
  resolve_center_dispatch svc (azelfile_override property)

/-- The time dictionary of _get_time_dict (parset.py lines 363-379): start,
stop = start + duration, and the duration.  The isot string formatting and
np.round(duration, 3) of the source are elided (times are exact rationals). -/
structure TimeDict where
  gte : Rat
  lte : Rat
  duration : Rat
deriving DecidableEq

def get_time_dict (property : Beam) : TimeDict :=
  { gte := property.startTime, lte := property.startTime + property.duration,
    duration := property.duration }

/-- A receiver-configuration document; each optional field models a key the
settings handlers may or may not write, the empty document has every field
absent.  source_name keeps the raw parameter value (a string or True), as the
source stores config["src"] verbatim. -/
structure Receiver where
  name : Option Str
  mode : Option Str
  source_name : Option ParamValue
  n_polars : Option Nat
  downsampling : Option Int
  dt_value : Option Rat
  dt_unit : Option Str
  df_value : Option Rat
  df_unit : Option Str
  channelization : Option Rat
  dumptime : Option Rat
  frequency : Option (List FreqInterval)
deriving DecidableEq

def emptyReceiver : Receiver :=
  { name := none, mode := none, source_name := none, n_polars := none,
    downsampling := none, dt_value := none, dt_unit := none, df_value := none,
    df_unit := none, channelization := none, dumptime := none, frequency := none }

/-- config[k] with the KeyError of a missing key. -/
def configLookup (config : List (Str × ParamValue)) (k : Str) : Except PyError ParamValue :=
  match dictGet? config k with
  | some v => Except.ok v
  | none => Except.error PyError.keyError

/-- Truthiness of config.get(k, False). -/
def configTruthy (config : List (Str × ParamValue)) (k : Str) : Bool :=
  match dictGet? config k with
  | some v => pyTruthy v
  | none => false

/-- Embeds _default_setting (parset.py lines 399-411). -/
def default_setting (sb2freq : Int → Rat) (digibeam : Beam) (_output : Output)
    (_version : Nat × Nat) : Except PyError Receiver := do
  let freq ← get_frequency_dict sb2freq digibeam.subbandList
  Except.ok { emptyReceiver with
    name := some ("LaNewBa".data),
    dt_value := some 1, dt_unit := some ("s".data),
    df_value := some (195.3125 : Rat), df_unit := some ("kHz".data),
    frequency := some freq }

/-- Embeds _pulsar_setting (parset.py lines 413-457): a missing parameters key
is caught (KeyError) and yields the empty document; otherwise sub-dispatch on
the parsed mode.  The lookups follow the evaluation order of the Python dict
literals (source, then downsampling, then frequency), so the first failing
lookup decides the propagated error. -/
def pulsar_setting (sb2freq : Int → Rat) (digibeam : Beam) (_output : Output)
    (_version : Nat × Nat) : Except PyError Receiver :=
  match digibeam.parameters with
  | none => Except.ok emptyReceiver
  | some params =>
    let mc := parse_parameters params true
    let mode := mc.1
    let config := mc.2
    if mode = "fold".data then do
      let src ← configLookup config ("src".data)
      let freq ← get_frequency_dict sb2freq digibeam.subbandList
      Except.ok { emptyReceiver with
        name := some ("undysputed".data), mode := some ("pulsar_fold".data),
        source_name := some src,
        n_polars := some (if configTruthy config ("onlyi".data) then 1 else 4),
        frequency := some freq }
    else if mode = "single".data then do
      let src ← configLookup config ("src".data)
      let dsraw ← configLookup config ("dstime".data)
      let ds ← pyIntOfParam dsraw
      let freq ← get_frequency_dict sb2freq digibeam.subbandList
      Except.ok { emptyReceiver with
        name := some ("undysputed".data), mode := some ("pulsar_single".data),
        source_name := some src, downsampling := some ds,
        n_polars := some (if configTruthy config ("onlyi".data) then 1 else 4),
        frequency := some freq }
    else if mode = "waveolaf".data then do
      let src ← configLookup config ("src".data)
      let freq ← get_frequency_dict sb2freq digibeam.subbandList
      Except.ok { emptyReceiver with
        name := some ("undysputed".data), mode := some ("pulsar_waveolaf".data),
        source_name := some src, frequency := some freq }
    else if mode = "wave".data then do
      let src ← configLookup config ("src".data)
      let freq ← get_frequency_dict sb2freq digibeam.subbandList
      Except.ok { emptyReceiver with
        name := some ("undysputed".data), mode := some ("pulsar_wave".data),
        source_name := some src, frequency := some freq }
    else
      Except.ok emptyReceiver

/-- Embeds _waveform_setting (parset.py lines 459-464). -/
def waveform_setting (sb2freq : Int → Rat) (digibeam : Beam) (_output : Output)
    (_version : Nat × Nat) : Except PyError Receiver := do
  let freq ← get_frequency_dict sb2freq digibeam.subbandList
  Except.ok { emptyReceiver with
    name := some ("undysputed".data), mode := some ("waveform".data),
    frequency := some freq }

/-- Embeds _dynamicspectrum_setting (parset.py lines 466-500): a missing
parameters key falls back to the documented defaults dt=5.00 ms, df=6.1 kHz; a
truthy "tf: rawrt" flag re-routes to the waveform handler; a missing dt or df
key is caught (KeyError) and yields the empty document, while an unparseable
dt or df raises ValueError uncaught. -/
def dynamicspectrum_setting (sb2freq : Int → Rat) (digibeam : Beam) (output : Output)
    (version : Nat × Nat) : Except PyError Receiver :=
  let config : List (Str × ParamValue) :=
    match digibeam.parameters with
    | some params => (parse_parameters params false).2
    | none => [("dt".data, ParamValue.rat 5), ("df".data, ParamValue.rat (61 / 10))]
  if configTruthy config ("tf: rawrt".data) then
    waveform_setting sb2freq digibeam output version
  else
    match dictGet? config ("dt".data) with
    | none => Except.ok emptyReceiver
    | some dtv => do
      let dt ← pyFloatOfParam dtv
      match dictGet? config ("df".data) with
      | none => Except.ok emptyReceiver
      | some dfv => do
        let df ← pyFloatOfParam dfv
        let freq ← get_frequency_dict sb2freq digibeam.subbandList
        Except.ok { emptyReceiver with
          name := some ("undysputed".data), mode := some ("tf".data),
          dt_value := some dt, dt_unit := some ("ms".data),
          df_value := some df, df_unit := some ("kHz".data),
          frequency := some freq }

/-- Embeds _nickel_setting (parset.py lines 502-528): channelization and dump
time come from the Output entity; the frequency ranges come from the entity
itself for versions at least 1.0 and from the Output subband list otherwise.
The version-1.0 parameter parse only emits a warning and is elided. -/
def nickel_setting (sb2freq : Int → Rat) (phasecenter : Beam) (output : Output)
    (version : Nat × Nat) : Except PyError Receiver :=
  if versionGe version (1, 0) then do
    let freq ← get_frequency_dict sb2freq phasecenter.subbandList
    Except.ok { emptyReceiver with
      name := some ("nickel".data),
      channelization := some output.nri_channelization,
      dumptime := some output.nri_dumpTime, frequency := some freq }
  else do
    let freq ← get_frequency_dict sb2freq output.nri_subbandList
    Except.ok { emptyReceiver with
      name := some ("nickel".data),
      channelization := some output.nri_channelization,
      dumptime := some output.nri_dumpTime, frequency := some freq }

/-- Embeds _tbd_setting (parset.py lines 530-534). -/
def tbd_setting (sb2freq : Int → Rat) (digibeam : Beam) (output : Output)
    (version : Nat × Nat) : Except PyError Receiver :=
  if output.nri_receivers.contains ("nickel".data) && versionLt version (1, 0) then
    nickel_setting sb2freq digibeam output version
  else
    default_setting sb2freq digibeam output version

def SettingFunc : Type :=
  (Int → Rat) → Beam → Output → (Nat × Nat) → Except PyError Receiver

/-- The BEAM_SETTINGS registry (parset.py lines 536-543); a lookup of an
unknown key is the KeyError of the Python dict access. -/
def beamSettings (key : Str) : Option SettingFunc :=
  if key = "none".data then some default_setting
  else if key = "pulsar".data then some pulsar_setting
  else if key = "waveform".data then some waveform_setting
  else if key = "dynamicspectrum".data then some dynamicspectrum_setting
  else if key = "tbd".data then some tbd_setting
  else if key = "nickel".data then some nickel_setting
  else none

/-- One mini-array (or antenna) entry of the document, the value-dict produced
by _array_to_dict_array. -/
structure MAEntry where
  value : Int
deriving DecidableEq

/-- A pointing document (the mandatory keys of _JsonEntry.add_pointing). -/
structure Pointing where
  idx : Nat
  name : Str
  center : PointingCenter
  time : TimeDict
  receiver : Receiver
deriving DecidableEq

/-- A field-of-view document (the keys of _JsonEntry.add_field_of_view that
the verified passes read; the filter list is elided). -/
structure Fov where
  idx : Nat
  name : Str
  center : PointingCenter
  time : TimeDict
  beamsquintCorrection : Bool
  mini_arrays : List MAEntry
  antennas : List MAEntry
  pointings : List Pointing
deriving DecidableEq

/-- The _JsonEntry document builder state (observation metadata elided). -/
structure JsonEntry where
  output : Output
  fovs : List Fov
  pointings : List (Nat × Pointing)
deriving DecidableEq

/-- Embeds _JsonEntry.fov_indices (parset.py lines 555-557). -/
def fov_indices (e : JsonEntry) : List Nat := e.fovs.map (fun fov => fov.idx)

/-- Embeds _JsonEntry.add_pointing (parset.py lines 634-653): build the
pointing document, pick the settings function (from BEAM_SETTINGS keyed by the
lowercased toDo, defaulting to "none", unless one is forced), then look up the
position of the field-of-view whose index equals the beam's noBeam; when no
index matches, np.where yields an empty array and indexing it with [0] raises
IndexError, uncaught. -/
def add_pointing (svc : CoordService) (sb2freq : Int → Rat) (e : JsonEntry)
    (index : Nat) (beam : Beam) (parset_version : Nat × Nat)
    (pointing_setting_func : Option SettingFunc) : Except PyError JsonEntry := do
  let center := get_pointing_center_dict svc beam
  let time := get_time_dict beam
  let f ← match pointing_setting_func with
    | some f => Except.ok f
    | none =>
      match beamSettings (toLowerStr (beam.toDo.getD ("none".data))) with
      | some f => Except.ok f
      | none => Except.error PyError.keyError
  let receiver ← f sb2freq beam e.output parset_version
  let pointing : Pointing :=
    { idx := index, name := beam.target, center := center, time := time,
      receiver := receiver }
  match (fov_indices e).findIdx? (fun i => i == beam.noBeam) with
  | some fov_idx => Except.ok { e with pointings := e.pointings ++ [(fov_idx, pointing)] }
  | none => Except.error PyError.indexError

/-- The per-field-of-view body of _JsonEntry.remove_unused_miniarrays
(parset.py lines 699-718).  When no mini-array index exceeds 96 the
field-of-view is left as is.  Otherwise the source loops over
fov["pointings"] and executes continue when a receiver name equals "nickel";
continue only skips to the next pointing, so the loop has no effect beyond
reading each receiver name (a KeyError if a receiver document has no name),
and then the indices above 96 are removed unconditionally. -/
def remove_unused_miniarrays_fov (fov : Fov) : Except PyError Fov :=
  let mas_in_fov := fov.mini_arrays.map (fun ma => ma.value)
  if !(mas_in_fov.any (fun ma => decide (ma > 96))) then Except.ok fov
  else do
    let _ ← fov.pointings.mapM (fun p =>
      match p.receiver.name with
      | some n => Except.ok n
      | none => Except.error PyError.keyError)
    Except.ok { fov with
      mini_arrays := fov.mini_arrays.filter (fun ma => !(decide (ma.value > 96))) }

/-- Embeds _JsonEntry.remove_unused_miniarrays over the whole builder state. -/
def remove_unused_miniarrays (e : JsonEntry) : Except PyError JsonEntry := do
  let fovs ← e.fovs.mapM remove_unused_miniarrays_fov
  Except.ok { e with fovs := fovs }

/-! ### The parset decoder (Parset._decodeParset, parset.py lines 1148-1195) -/

/-- A raw Property Store: the decoder's stored key/value pairs.  The typed
coercion performed by _ParsetProperty.__setitem__ is orthogonal to the line
handling verified here and is elided (values are kept as raw strings). -/
abbrev PStore := List (Str × Str)

structure RawParset where
  observation : PStore
  output : PStore
  anabeams : List (Nat × PStore)
  digibeams : List (Nat × PStore)
  phase_centers : List (Nat × PStore)
deriving DecidableEq

def emptyRawParset : RawParset :=
  { observation := [], output := [], anabeams := [], digibeams := [],
    phase_centers := [] }

/-- The decoder loop state: the partially filled parset, and the Python locals
dicoName/content, which keep their values from the last successful split when
a later line fails the split (none while no line has split successfully). -/
structure DecodeState where
  parset : RawParset
  prevSplit : Option (Str × Str)
deriving DecidableEq

/-- The first match of the regular expression bracket-digits-bracket: the
captured (possibly empty) digit group, or none when nothing matches. -/
def scanBracket : Str → Option Str
  | [] => none
  | '[' :: rest =>
    let ds := rest.takeWhile Char.isDigit
    match rest.drop ds.length with
    | ']' :: _ => some ds
    | _ => scanBracket rest
  | _ :: rest => scanBracket rest

/-- int(re.search(bracket pattern, dicoName).group(1)): no match raises
AttributeError (group of None), an empty digit group raises ValueError. -/
def extractBeamIndex (dicoName : Str) : Except PyError Nat :=
  match scanBracket dicoName with
  | none => Except.error PyError.attributeError
  | some ds =>
    if ds.isEmpty then Except.error PyError.valueError
    else Except.ok (digitsToNat ds)

/-- Store a key in the per-index entity mapping, creating the entity tagged
with its own index (str(idx) under tagKey) on first encounter. -/
def beamsInsert (tagKey : Str) (beams : List (Nat × PStore)) (idx : Nat)
    (k v : Str) : List (Nat × PStore) :=
  if beams.any (fun p => p.1 == idx) then
    beams.map (fun p => if p.1 == idx then (p.1, dictInsert p.2 k v) else p)
  else
    beams ++ [(idx, dictInsert (dictInsert [] tagKey (Nat.toDigits 10 idx)) k v)]

/-- One iteration of the _decodeParset while loop.  The split on the first
period is guarded: a ValueError there is caught and the locals keep their
previous values (a NameError if no line has split yet).  The split on the
first equals sign is NOT guarded: a content without an equals sign raises an
uncaught ValueError.  Dispatch tests the original line against the section
prefixes in source order. -/
def decodeLine (st : DecodeState) (line : Str) : Except PyError DecodeState :=
  let sp := pySplit1 ['.'] line
  let dc? : Option (Str × Str) :=
    match sp with
    | [d, c] => some (d, c)
    | _ => st.prevSplit
  match dc? with
  | none => Except.error PyError.nameError
  | some (dicoName, content) =>
    match pySplit1 ['='] content with
    | [k, v] => do
      let parset ←
        if startsWithStr ("Observation".data) line then
          Except.ok { st.parset with observation := dictInsert st.parset.observation k v }
        else if startsWithStr ("Output".data) line then
          Except.ok { st.parset with output := dictInsert st.parset.output k v }
        else if startsWithStr ("AnaBeam".data) line then do
          let idx ← extractBeamIndex dicoName
          Except.ok { st.parset with
            anabeams := beamsInsert ("anaIdx".data) st.parset.anabeams idx k v }
        else if startsWithStr ("Beam".data) line then do
          let idx ← extractBeamIndex dicoName
          Except.ok { st.parset with
            digibeams := beamsInsert ("digiIdx".data) st.parset.digibeams idx k v }
        else if startsWithStr ("PhaseCenter".data) line then do
          let idx ← extractBeamIndex dicoName
          Except.ok { st.parset with
            phase_centers := beamsInsert ("pcIdx".data) st.parset.phase_centers idx k v }
        else
          Except.ok st.parset
      Except.ok { parset := parset, prevSplit := some (dicoName, content) }
    | _ => Except.error PyError.valueError

/-- Embeds Parset._decodeParset over the list of lines of the file (the
sidecar user file handling, pure I/O, is elided). -/
def decodeParset (lines : List Str) : Except PyError RawParset := do
  let st ← lines.foldlM decodeLine { parset := emptyRawParset, prevSplit := none }
  Except.ok st.parset

/-! ### The writer-side beam hierarchy (ParsetUser, parset.py lines 1695-1864) -/

/-- A writer-side numerical beam: its running index attribute, its noBeam
back-reference (the configuration entry written by _propagate_index), and the
rest of its configuration as an opaque payload. -/
structure NumBeam where
  index : Nat
  noBeam : Nat
  config : List (Str × Str)
deriving DecidableEq

/-- A writer-side analog beam: its index and its owned numerical beams. -/
structure AnaBeamBlock where
  index : Nat
  numerical_beams : List NumBeam
deriving DecidableEq

/-- The observation block of ParsetUser, reduced to the beam hierarchy. -/
structure WriterObs where
  analog_beams : List AnaBeamBlock
deriving DecidableEq

/-- The numerical beams in hierarchy order (the order every renumbering and
removal pass of the source walks them in). -/
def flattenNum (abeams : List AnaBeamBlock) : List NumBeam :=
  (abeams.map (fun ab => ab.numerical_beams)).flatten

/-- Python del lst[i] (out-of-range leaves the list unchanged; the source
only reaches it with an in-range local index). -/
def delAt {α : Type} : List α → Nat → List α
  | [], _ => []
  | _ :: xs, 0 => xs
  | x :: xs, n + 1 => x :: delAt xs n

/-- The counter walk of ParsetUser.remove_numerical_beam (lines 1769-1782):
find the analog beam holding the numbeam_index-th numerical beam in flattened
order and delete it there; past the end nothing is deleted. -/
def removeNumBeamIn : List AnaBeamBlock → Nat → List AnaBeamBlock
  | [], _ => []
  | ab :: rest, k =>
    if k < ab.numerical_beams.length then
      { ab with numerical_beams := delAt ab.numerical_beams k } :: rest
    else
      ab :: removeNumBeamIn rest (k - ab.numerical_beams.length)

/-- Assign consecutive indices starting at c. -/
def reindexFrom (c : Nat) : List NumBeam → List NumBeam
  | [] => []
  | nb :: rest => { nb with index := c } :: reindexFrom (c + 1) rest

/-- The nested loop of ParsetUser._updates_numbeams_indices (lines 1840-1846):
a single counter runs over the analog beams' numerical beams in order. -/
def updateNumbeamsIndicesFrom (c : Nat) : List AnaBeamBlock → List AnaBeamBlock
  | [] => []
  | ab :: rest =>
    { ab with numerical_beams := reindexFrom c ab.numerical_beams }
      :: updateNumbeamsIndicesFrom (c + ab.numerical_beams.length) rest

def updates_numbeams_indices (obs : WriterObs) : WriterObs :=
  { analog_beams := updateNumbeamsIndicesFrom 0 obs.analog_beams }

/-- Embeds ParsetUser.remove_numerical_beam (lines 1769-1782): delete the
beam at the flattened position, then renumber all numerical beams; noBeam
back-references and analog-beam indices are not touched. -/
def remove_numerical_beam (obs : WriterObs) (numbeam_index : Nat) : WriterObs :=
  updates_numbeams_indices
    { analog_beams := removeNumBeamIn obs.analog_beams numbeam_index }

/-! ### The schema-seeded parset blocks (_ParsetBlock, parset.py lines 1505-1555)

Python dicts are mutable objects shared by reference, so the per-instance
deepcopy of PARSET_OPTIONS[field] in _ParsetBlock.__init__ is what keeps two
blocks from aliasing one configuration.  The embedding makes the object
identity explicit: a heap of configuration dictionaries addressed by
position, where the deepcopy is a fresh allocation and a field write mutates
through the owning block's address. -/

/-- One configuration entry of the writer schema: default value, unit,
required flag, modified flag and the optional validation pattern. -/
structure FieldSpec where
  value : Str
  unit : Str
  required : Bool
  modified : Bool
  pattern : Option Str
deriving DecidableEq

abbrev BlockConfig := List (Str × FieldSpec)

/-- A _ParsetBlock instance: its parset field name and the heap address of
its own configuration dictionary. -/
structure BlockRef where
  field : Str
  addr : Nat
deriving DecidableEq

/-- The mutable state shared by all writer blocks: the heap of configuration
dictionaries and the created blocks.  The PARSET_OPTIONS registry is an
immutable function passed to the allocation. -/
structure WriterState where
  heap : List BlockConfig
  blocks : List BlockRef
deriving DecidableEq

/-- Python lst[i] = v (out-of-range writes nothing; the model only addresses
allocated cells). -/
def setAt {α : Type} : List α → Nat → α → List α
  | [], _, _ => []
  | _ :: xs, 0, v => v :: xs
  | x :: xs, n + 1, v => x :: setAt xs n v

/-- Embeds _ParsetBlock.__init__ (lines 1509-1511): the configuration is a
deepcopy of PARSET_OPTIONS[field], modelled as a fresh heap cell whose
address no existing block holds. -/
def newBlock (registry : Str → BlockConfig) (st : WriterState) (field : Str) :
    WriterState :=
  { heap := st.heap ++ [registry field],
    blocks := st.blocks ++ [{ field := field, addr := st.heap.length }] }

/-- A value passed to _ParsetBlock.__setitem__: astropy Time (already rendered
to its isot string), TimeDelta (already rounded to integer seconds), bool, or
anything else kept as is (modelled by its string form). -/
inductive PropValue where
  | timeVal (isot : Str)
  | deltaVal (seconds : Int)
  | boolVal (b : Bool)
  | strVal (s : Str)
deriving DecidableEq

def intToStr (n : Int) : Str :=
  if n < 0 then '-' :: Nat.toDigits 10 n.natAbs else Nat.toDigits 10 n.natAbs

/-- The value conversions of _ParsetBlock._modify_properties (lines 1534-1545). -/
def formatValue : PropValue → Str
  | PropValue.timeVal isot => isot ++ ("Z".data)
  | PropValue.deltaVal seconds => intToStr seconds ++ ("s".data)
  | PropValue.boolVal b => if b then "true".data else "false".data
  | PropValue.strVal s => s

/-- Embeds _ParsetBlock._modify_properties for one key (lines 1526-1555),
called on the block at position blockIdx: when the key exists in that block's
own configuration, its value is replaced by the converted value and its
modified flag is set; an unknown key only logs a warning and changes
nothing. -/
def modifyProperty (st : WriterState) (blockIdx : Nat) (key : Str)
    (value : PropValue) : WriterState :=
  match st.blocks[blockIdx]? with
  | none => st
  | some b =>
    match st.heap[b.addr]? with
    | none => st
    | some config =>
      if config.any (fun p => p.1 == key) then
        let config2 := config.map (fun p =>
          if p.1 == key then
            (p.1, { p.2 with value := formatValue value, modified := true })
          else p)
        { st with heap := setAt st.heap b.addr config2 }
      else st

/-- The configuration dictionary owned by the block at position i. -/
def blockConfig? (st : WriterState) (i : Nat) : Option BlockConfig :=
  match st.blocks[i]? with
  | none => none
  | some b => st.heap[b.addr]?

/-- Well-formedness maintained by the allocation discipline: every block's
address is allocated, and no two blocks alias one heap cell (the deepcopy
guarantee). -/
def wfWriterState (st : WriterState) : Prop :=
  (∀ b ∈ st.blocks, b.addr < st.heap.length) ∧
    (st.blocks.map (fun b => b.addr)).Nodup

/-! ### Concrete fixtures used by the counterexamples and witnesses -/

/-- A trivial coordinate service used for concrete inputs: every transform
returns the in-range point (0, 0). -/
def svc0 : CoordService :=
  { altazToRadec := fun _ _ => (0, 0), radecToAltaz := fun _ _ => (0, 0),
    solarRadec := fun _ => (0, 0), solarAltaz := fun _ => (0, 0) }

/-- A concrete subband-to-frequency map for concrete inputs. -/
def sbfreq0 : Int → Rat := fun n => (n : Rat)

/-- A base J2000 beam entity used to build the concrete inputs. -/
def beamBase : Beam :=
  { noBeam := 0, target := "tgt".data, directionType := "J2000".data,
    angle1 := 359, angle2 := 0, azelFile := false,
    decal_az := none, decal_el := none, decal_ra := none, decal_dec := none,
    startTime := 0, duration := 3600, toDo := none, parameters := none,
    subbandList := [100, 101] }

def out0 : Output :=
  { nri_receivers := [], nri_channelization := 1, nri_dumpTime := 1,
    nri_subbandList := [], xst_userfile := false, xst_sbList := [] }

/-- C4 concrete input: a J2000 pointing at right ascension 359 with a +2
degree right-ascension decal offset. -/
def c4Beam : Beam := { beamBase with decal_ra := some 2 }

/-- C6 concrete input: directionType "natif" with an azelFile key present. -/
def c6Beam : Beam := { beamBase with directionType := "natif".data, azelFile := true }

/-- C6 witness input: directionType "NATIF" and no azelFile key. -/
def c6WitnessBeam : Beam := { beamBase with directionType := "NATIF".data }

/-- C7 witness input: an azelFile key and a directionType that says j2000. -/
def c7Beam : Beam := { beamBase with azelFile := true }

/-- C3 concrete input: the pulsar parameter string of the claim. -/
def c3Beam : Beam :=
  { beamBase with parameters := some ("FOLD: --src=B0329+54 --onlyi".data) }

/-- The dictionary _parse_parameters produces on the C3 parameter string:
note the trailing space kept in the src value. -/
def c3Config : List (Str × ParamValue) :=
  [("src".data, ParamValue.str ("b0329+54 ".data)),
   ("fold:".data, ParamValue.boolTrue),
   ("onlyi".data, ParamValue.boolTrue)]

/-- The receiver document the pulsar handler actually builds on the C3
input (given the frequency list freq). -/
def c3Receiver (freq : List FreqInterval) : Receiver :=
  { emptyReceiver with
    name := some ("undysputed".data), mode := some ("pulsar_fold".data),
    source_name := some (ParamValue.str ("b0329+54 ".data)),
    n_polars := some 1, frequency := some freq }

/-- C1 concrete input: a pointing whose receiver is the imaging correlator. -/
def c1Pointing : Pointing :=
  { idx := 0, name := [], center := { ra := none, dec := none, obs_direction_type := [] },
    time := { gte := 0, lte := 0, duration := 0 },
    receiver := { emptyReceiver with name := some ("nickel".data) } }

/-- C1 concrete input: a field-of-view with a remote mini-array (index 97)
and one attached nickel pointing. -/
def c1Fov : Fov :=
  { idx := 0, name := [], center := { ra := none, dec := none, obs_direction_type := [] },
    time := { gte := 0, lte := 0, duration := 0 },
    beamsquintCorrection := false,
    mini_arrays := [{ value := 1 }, { value := 97 }], antennas := [],
    pointings := [c1Pointing] }

def c1Entry : JsonEntry := { output := out0, fovs := [c1Fov], pointings := [] }

/-- C9 witness input: a builder state holding one field-of-view of index 0. -/
def c9Fov : Fov := { c1Fov with pointings := [], mini_arrays := [] }

def c9Entry : JsonEntry := { output := out0, fovs := [c9Fov], pointings := [] }

/-- C9 witness input: a beam whose noBeam back-reference (5) matches no
field-of-view index of c9Entry. -/
def c9Beam : Beam := { beamBase with noBeam := 5 }

/-! ### Claim theorems -/

/-- C1 (code bug): on a field-of-view holding remote mini-array index 97 and
an attached pointing whose receiver is named nickel, the pruning pass removes
index 97 anyway, because the continue statement of the receiver check only
skips to the next pointing and the check therefore has no effect; the claim
(and the log message the source prints) say such a field-of-view is left
untouched. -/
theorem c1_nickel_fov_pruned_anyway :
    c1Fov.mini_arrays = [{ value := 1 }, { value := 97 }]
    ∧ c1Fov.pointings.map (fun p => p.receiver.name) = [some ("nickel".data)]
    ∧ remove_unused_miniarrays c1Entry
        = Except.ok { c1Entry with fovs := [{ c1Fov with mini_arrays := [{ value := 1 }] }] } := by
  decide

/-- C2 (code bug): a line that contains a period but no equals sign makes the
decoder raise an uncaught ValueError (only the period split is guarded), so
decoding fails instead of skipping the malformed line. -/
theorem c2_decode_fails_on_missing_equals :
    containsChar ("Observation.title".data) '.' = true
    ∧ containsChar ("Observation.title".data) '=' = false
    ∧ decodeParset [("Observation.title".data)] = Except.error PyError.valueError := by
  decide

/-- C5 (amended): on an empty integer sequence the frequency-variant range
compressor raises ValueError (np.split yields one empty group whose min is a
zero-size reduction) instead of returning an empty interval list. -/
theorem c5_empty_subband_list_errors (sb2freq : Int → Rat) :
    get_frequency_dict sb2freq [] = Except.error PyError.valueError := rfl

/-- C5 counterexample: at the concrete subband-to-frequency map, the empty
input produces an error, not the empty interval list the claim states. -/
theorem c5_counterexample :
    get_frequency_dict sbfreq0 [] = Except.error PyError.valueError
    ∧ get_frequency_dict sbfreq0 [] ≠ Except.ok [] := by
  decide

/-- C5 witness: the amended theorem applied at the concrete map. -/
theorem c5_witness :
    get_frequency_dict sbfreq0 [] = Except.error PyError.valueError :=
  c5_empty_subband_list_errors sbfreq0

/-- C4 counterexample: a J2000 beam at right ascension 359 with decal_ra = 2
resolves to right ascension exactly 360 (the clamp is inclusive), which is
outside the claimed half-open interval. -/
theorem c4_counterexample :
    c4Beam.decal_ra = some 2
    ∧ (get_pointing_center_dict svc0 c4Beam).ra = some 360
    ∧ ¬ ((360 : Rat) < 360) := by
  decide

/-- The clamp helper maps into the closed interval when the bounds are
ordered. -/
theorem constrain_angle_bounds (a mn mx : Rat) (h : mn ≤ mx) :
    mn ≤ constrain_angle a mn mx ∧ constrain_angle a mn mx ≤ mx := by
  unfold constrain_angle
  split_ifs with h1 h2 <;> constructor <;> linarith

set_option maxHeartbeats 1000000 in
/-- Every resolved coordinate of the dispatch core lies in the closed
intervals [0, 360] and [-90, 90], given that the coordinate engine returns
equatorial coordinates in range (only the azelfile branch returns an engine
coordinate without clamping it). -/
theorem dispatch_center_in_closed_bounds (svc : CoordService)
    (hsvc : ∀ a e, 0 ≤ (svc.altazToRadec a e).1 ∧ (svc.altazToRadec a e).1 ≤ 360
        ∧ -90 ≤ (svc.altazToRadec a e).2 ∧ (svc.altazToRadec a e).2 ≤ 90)
    (beam : Beam) :
    (∀ r, (resolve_center_dispatch svc beam).ra = some r → 0 ≤ r ∧ r ≤ 360)
    ∧ (∀ d, (resolve_center_dispatch svc beam).dec = some d → -90 ≤ d ∧ d ≤ 90) := by
  unfold resolve_center_dispatch
  dsimp only
  split_ifs
  all_goals refine ⟨fun v hv => ?_, fun v hv => ?_⟩
  all_goals dsimp only at hv
  all_goals try (rw [Option.some.injEq] at hv; subst hv)
  · exact constrain_angle_bounds _ 0 360 (by norm_num)
  · exact constrain_angle_bounds _ (-90) 90 (by norm_num)
  · exact constrain_angle_bounds _ 0 360 (by norm_num)
  · exact constrain_angle_bounds _ (-90) 90 (by norm_num)
  · exact constrain_angle_bounds _ 0 360 (by norm_num)
  · exact constrain_angle_bounds _ (-90) 90 (by norm_num)
  · exact ⟨(hsvc 0 90).1, (hsvc 0 90).2.1⟩
  · exact ⟨(hsvc 0 90).2.2.1, (hsvc 0 90).2.2.2⟩
  · exact constrain_angle_bounds _ 0 360 (by norm_num)
  · exact constrain_angle_bounds _ (-90) 90 (by norm_num)
  · exact constrain_angle_bounds _ 0 360 (by norm_num)
  · exact constrain_angle_bounds _ (-90) 90 (by norm_num)

/-- C4 (amended): for every entity whose pointing center resolves to non-null
coordinates, the right ascension lies in the CLOSED interval [0, 360] (the
inclusive clamp makes 360 attainable, so the claimed half-open [0, 360) fails)
and the declination lies in [-90, 90], for all values of the decal offset
fields, provided the black-box coordinate engine returns in-range equatorial
coordinates. -/
theorem c4_center_in_closed_bounds (svc : CoordService)
    (hsvc : ∀ a e, 0 ≤ (svc.altazToRadec a e).1 ∧ (svc.altazToRadec a e).1 ≤ 360
        ∧ -90 ≤ (svc.altazToRadec a e).2 ∧ (svc.altazToRadec a e).2 ≤ 90)
    (beam : Beam) :
    (∀ r, (get_pointing_center_dict svc beam).ra = some r → 0 ≤ r ∧ r ≤ 360)
    ∧ (∀ d, (get_pointing_center_dict svc beam).dec = some d → -90 ≤ d ∧ d ≤ 90) :=
  dispatch_center_in_closed_bounds svc hsvc (azelfile_override beam)

/-- C4 witness: the amended bounds applied at the concrete service and the
concrete beam whose resolved right ascension is exactly 360. -/
theorem c4_witness :
    (∀ r, (get_pointing_center_dict svc0 c4Beam).ra = some r → 0 ≤ r ∧ r ≤ 360)
    ∧ (∀ d, (get_pointing_center_dict svc0 c4Beam).dec = some d → -90 ≤ d ∧ d ≤ 90) :=
  c4_center_in_closed_bounds svc0
    (by intro a e; refine ⟨?_, ?_, ?_, ?_⟩ <;> norm_num [svc0]) c4Beam

/-- C6 (amended): for every entity WITHOUT an azelFile key whose
directionType equals "natif" case-insensitively, the resolved pointing center
has null right ascension and declination, regardless of any other fields
(with an azelFile key present the override wins and the coordinates are
non-null, hence the added hypothesis). -/
theorem c6_natif_unresolvable (svc : CoordService) (beam : Beam)
    (hz : beam.azelFile = false)
    (hd : toLowerStr beam.directionType = "natif".data) :
    (get_pointing_center_dict svc beam).ra = none
    ∧ (get_pointing_center_dict svc beam).dec = none := by
  unfold get_pointing_center_dict azelfile_override
  rw [hz]
  rw [if_neg (by simp)]
  unfold resolve_center_dispatch
  dsimp only
  rw [hd]
  rw [if_neg (by decide), if_neg (by decide), if_neg (by decide), if_pos rfl]
  exact ⟨rfl, rfl⟩

/-- C6 witness: the amended theorem at a concrete beam with directionType
"NATIF" (case-insensitivity exercised) and no azelFile key. -/
theorem c6_witness :
    c6WitnessBeam.azelFile = false
    ∧ toLowerStr c6WitnessBeam.directionType = ("natif".data)
    ∧ ((get_pointing_center_dict svc0 c6WitnessBeam).ra = none
        ∧ (get_pointing_center_dict svc0 c6WitnessBeam).dec = none) :=
  ⟨by decide, by decide, c6_natif_unresolvable svc0 c6WitnessBeam (by decide) (by decide)⟩

/-- C7 (confirmed): whenever an azelFile key is present, the resolver reports
direction type "azelgeo_azelfile" and returns the zenith pointing (the
engine's equatorial image of azimuth 0, elevation 90), regardless of the
entity's stated directionType. -/
theorem c7_azelfile_forces_zenith (svc : CoordService) (beam : Beam)
    (hz : beam.azelFile = true) :
    (get_pointing_center_dict svc beam).obs_direction_type = "azelgeo_azelfile".data
    ∧ (get_pointing_center_dict svc beam).ra = some (svc.altazToRadec 0 90).1
    ∧ (get_pointing_center_dict svc beam).dec = some (svc.altazToRadec 0 90).2 := by
  unfold get_pointing_center_dict azelfile_override
  rw [hz, if_pos rfl]
  unfold resolve_center_dispatch
  dsimp only
  rw [if_neg (by decide), if_neg (by decide), if_pos (by decide)]
  exact ⟨by dsimp only; decide, rfl, rfl⟩

/-- C7 witness: a beam whose own directionType says J2000 but which carries
an azelFile key resolves as azelgeo_azelfile at the concrete service. -/
theorem c7_witness :
    c7Beam.azelFile = true ∧ c7Beam.directionType = "J2000".data
    ∧ ((get_pointing_center_dict svc0 c7Beam).obs_direction_type = "azelgeo_azelfile".data
        ∧ (get_pointing_center_dict svc0 c7Beam).ra = some (svc0.altazToRadec 0 90).1
        ∧ (get_pointing_center_dict svc0 c7Beam).dec = some (svc0.altazToRadec 0 90).2) :=
  ⟨by decide, by decide, c7_azelfile_forces_zenith svc0 c7Beam (by decide)⟩

/-- C6 counterexample: an entity whose directionType field equals "natif" but
which carries an azelFile key is re-dispatched as azelgeo_azelfile and
resolves to non-null coordinates. -/
theorem c6_counterexample :
    c6Beam.directionType = "natif".data
    ∧ (get_pointing_center_dict svc0 c6Beam).ra = some 0
    ∧ (get_pointing_center_dict svc0 c6Beam).dec ≠ none := by
  decide

/-- C3 (amended): on the parameter string of the claim, the pulsar dispatcher
produces mode pulsar_fold and one polarization, but the source name keeps the
trailing space that the "--" split leaves on the value: "b0329+54 ", not
"b0329+54". -/
theorem c3_fold_pulsar_setting (f : Int → Rat) (beam : Beam) (out : Output)
    (ver : Nat × Nat) (freq : List FreqInterval)
    (hp : beam.parameters = some ("FOLD: --src=B0329+54 --onlyi".data))
    (hf : get_frequency_dict f beam.subbandList = Except.ok freq) :
    pulsar_setting f beam out ver = Except.ok (c3Receiver freq) := by
  unfold pulsar_setting
  rw [hp]
  dsimp only
  rw [show parse_parameters ("FOLD: --src=B0329+54 --onlyi".data) true
      = ("fold".data, c3Config) from by decide]
  dsimp only
  rw [if_pos rfl]
  rw [show configLookup c3Config ("src".data)
      = Except.ok (ParamValue.str ("b0329+54 ".data)) from by decide]
  rw [show configTruthy c3Config ("onlyi".data) = true from by decide]
  dsimp only [Except.bind, bind]
  rw [hf]
  rfl

/-- C3 witness: the amended theorem at the concrete beam, frequency map and
version. -/
theorem c3_witness :
    c3Beam.parameters = some ("FOLD: --src=B0329+54 --onlyi".data)
    ∧ pulsar_setting sbfreq0 c3Beam out0 (0, 0)
        = Except.ok (c3Receiver [{ gte := 100, lt := 101 + sbWidthMHz }]) :=
  ⟨by decide, c3_fold_pulsar_setting sbfreq0 c3Beam out0 (0, 0) _ (by decide) (by decide)⟩

/-- C3 counterexample: the receiver document produced on the claim's input
has source_name "b0329+54 " (with a trailing space), which differs from the
claimed "b0329+54". -/
theorem c3_counterexample :
    pulsar_setting sbfreq0 c3Beam out0 (0, 0)
      = Except.ok (c3Receiver [{ gte := 100, lt := 101 + sbWidthMHz }])
    ∧ (c3Receiver [{ gte := 100, lt := 101 + sbWidthMHz }]).source_name
        = some (ParamValue.str ("b0329+54 ".data))
    ∧ ParamValue.str ("b0329+54 ".data) ≠ ParamValue.str ("b0329+54".data) := by
  decide

/-- C9 (confirmed): when a beam's noBeam back-reference matches no
field-of-view index of the document under construction, add_pointing raises
IndexError (np.where over the index array is empty and indexing it fails);
the builder state is not extended and the error is uncaught by to_json, so
the document build aborts. -/
theorem c9_dangling_noBeam_raises (svc : CoordService) (f : Int → Rat)
    (e : JsonEntry) (index : Nat) (beam : Beam) (ver : Nat × Nat)
    (g : SettingFunc) (r : Receiver)
    (hg : beamSettings (toLowerStr (beam.toDo.getD ("none".data))) = some g)
    (hr : g f beam e.output ver = Except.ok r)
    (hnb : beam.noBeam ∉ fov_indices e) :
    add_pointing svc f e index beam ver none = Except.error PyError.indexError := by
  have hn : (fov_indices e).findIdx? (fun i => i == beam.noBeam) = none := by
    rw [List.findIdx?_eq_none_iff]
    intro x hx
    exact beq_eq_false_iff_ne.mpr (fun h => hnb (h ▸ hx))
  unfold add_pointing
  dsimp only
  rw [hg]
  dsimp only [Except.bind, bind, Except.instMonad]
  rw [hr]
  dsimp only [Except.bind]
  rw [hn]

/-- The receiver the default handler builds for the C9 witness beam. -/
def c9Receiver : Receiver :=
  { emptyReceiver with
    name := some ("LaNewBa".data), dt_value := some 1, dt_unit := some ("s".data),
    df_value := some (195.3125 : Rat), df_unit := some ("kHz".data),
    frequency := some [{ gte := 100, lt := 101 + sbWidthMHz }] }

/-- C9 witness: the theorem at a concrete builder state holding one
field-of-view of index 0 and a beam whose noBeam is 5. -/
theorem c9_witness :
    c9Beam.noBeam = 5 ∧ fov_indices c9Entry = [0]
    ∧ add_pointing svc0 sbfreq0 c9Entry 0 c9Beam (0, 0) none
        = Except.error PyError.indexError :=
  ⟨by decide, by decide,
    c9_dangling_noBeam_raises svc0 sbfreq0 c9Entry 0 c9Beam (0, 0) default_setting
      c9Receiver rfl (by decide) (by decide)⟩

/-! ### C8: renumbering on numerical-beam removal -/

theorem flattenNum_cons (ab : AnaBeamBlock) (rest : List AnaBeamBlock) :
    flattenNum (ab :: rest) = ab.numerical_beams ++ flattenNum rest := by
  simp [flattenNum]

theorem delAt_append_lt {α : Type} (xs ys : List α) (k : Nat) (h : k < xs.length) :
    delAt (xs ++ ys) k = delAt xs k ++ ys := by
  induction xs generalizing k with
  | nil => simp at h
  | cons x xs ih =>
    cases k with
    | zero => simp [delAt]
    | succ k =>
      show x :: delAt (xs ++ ys) k = x :: (delAt xs k ++ ys)
      exact congrArg (x :: ·) (ih k (by simpa using h))

theorem delAt_append_ge {α : Type} (xs ys : List α) (k : Nat) (h : xs.length ≤ k) :
    delAt (xs ++ ys) k = xs ++ delAt ys (k - xs.length) := by
  induction xs generalizing k with
  | nil => simp [delAt]
  | cons x xs ih =>
    cases k with
    | zero => simp at h
    | succ k =>
      rw [List.length_cons, Nat.succ_sub_succ]
      show x :: delAt (xs ++ ys) k = x :: (xs ++ delAt ys (k - xs.length))
      exact congrArg (x :: ·) (ih k (Nat.le_of_succ_le_succ h))

/-- Removing the k-th flattened numerical beam deletes position k of the
flattened list. -/
theorem removeNumBeamIn_flatten (abeams : List AnaBeamBlock) (k : Nat) :
    flattenNum (removeNumBeamIn abeams k) = delAt (flattenNum abeams) k := by
  induction abeams generalizing k with
  | nil => cases k <;> rfl
  | cons ab rest ih =>
    by_cases h : k < ab.numerical_beams.length
    · rw [removeNumBeamIn, if_pos h, flattenNum_cons, flattenNum_cons]
      dsimp only
      rw [delAt_append_lt _ _ _ h]
    · rw [removeNumBeamIn, if_neg h, flattenNum_cons, flattenNum_cons, ih,
        delAt_append_ge _ _ _ (Nat.le_of_not_lt h)]

theorem reindexFrom_append (c : Nat) (xs ys : List NumBeam) :
    reindexFrom c (xs ++ ys) = reindexFrom c xs ++ reindexFrom (c + xs.length) ys := by
  induction xs generalizing c with
  | nil => simp [reindexFrom]
  | cons x xs ih =>
    show { x with index := c } :: reindexFrom (c + 1) (xs ++ ys)
        = { x with index := c }
          :: (reindexFrom (c + 1) xs ++ reindexFrom (c + (xs.length + 1)) ys)
    rw [ih (c + 1)]
    have harith : c + 1 + xs.length = c + (xs.length + 1) := by omega
    rw [harith]

/-- The renumbering pass reassigns consecutive indices along the flattened
list, starting at the counter value. -/
theorem updateNumbeamsIndicesFrom_flatten (c : Nat) (abeams : List AnaBeamBlock) :
    flattenNum (updateNumbeamsIndicesFrom c abeams) = reindexFrom c (flattenNum abeams) := by
  induction abeams generalizing c with
  | nil => rfl
  | cons ab rest ih =>
    rw [updateNumbeamsIndicesFrom, flattenNum_cons, flattenNum_cons]
    dsimp only
    rw [reindexFrom_append, ih]

theorem reindexFrom_getElem? (c : Nat) (l : List NumBeam) (i : Nat) :
    (reindexFrom c l)[i]? = l[i]?.map (fun nb => { nb with index := c + i }) := by
  induction l generalizing c i with
  | nil => simp [reindexFrom]
  | cons x l ih =>
    cases i with
    | zero => simp [reindexFrom]
    | succ i =>
      simp only [reindexFrom, List.getElem?_cons_succ, ih (c + 1) i]
      have harith : c + 1 + i = c + (i + 1) := by omega
      rw [harith]

theorem delAt_getElem?_ge {α : Type} (l : List α) (k i : Nat) (h : k ≤ i) :
    (delAt l k)[i]? = l[i + 1]? := by
  induction l generalizing k i with
  | nil => simp [delAt]
  | cons x l ih =>
    cases k with
    | zero => simp [delAt]
    | succ k =>
      cases i with
      | zero => omega
      | succ i =>
        simp only [delAt, List.getElem?_cons_succ]
        exact ih k i (by omega)

theorem reindexFrom_mem (c : Nat) (l : List NumBeam) (nb : NumBeam)
    (h : nb ∈ reindexFrom c l) : ∃ nb0 ∈ l, nb.noBeam = nb0.noBeam := by
  induction l generalizing c with
  | nil => simp [reindexFrom] at h
  | cons x l ih =>
    simp only [reindexFrom, List.mem_cons] at h
    cases h with
    | inl h => exact ⟨x, List.mem_cons_self x l, by rw [h]⟩
    | inr h =>
      obtain ⟨nb0, hmem, heq⟩ := ih (c + 1) h
      exact ⟨nb0, List.mem_cons_of_mem x hmem, heq⟩

theorem delAt_subset {α : Type} (l : List α) (k : Nat) (x : α)
    (h : x ∈ delAt l k) : x ∈ l := by
  induction l generalizing k with
  | nil => simp [delAt] at h
  | cons a l ih =>
    cases k with
    | zero => exact List.mem_cons_of_mem a h
    | succ k =>
      simp only [delAt, List.mem_cons] at h
      cases h with
      | inl h => exact h ▸ List.mem_cons_self a l
      | inr h => exact List.mem_cons_of_mem a (ih k h)

theorem removeNumBeamIn_map_index (abeams : List AnaBeamBlock) (k : Nat) :
    (removeNumBeamIn abeams k).map (fun ab => ab.index)
      = abeams.map (fun ab => ab.index) := by
  induction abeams generalizing k with
  | nil => rfl
  | cons ab rest ih =>
    by_cases h : k < ab.numerical_beams.length
    · rw [removeNumBeamIn, if_pos h]
      simp
    · rw [removeNumBeamIn, if_neg h]
      simp [ih]

theorem updateNumbeamsIndicesFrom_map_index (c : Nat) (abeams : List AnaBeamBlock) :
    (updateNumbeamsIndicesFrom c abeams).map (fun ab => ab.index)
      = abeams.map (fun ab => ab.index) := by
  induction abeams generalizing c with
  | nil => rfl
  | cons ab rest ih =>
    rw [updateNumbeamsIndicesFrom]
    simp [ih]

/-- Removal does not touch the analog beams' own indices. -/
theorem remove_numerical_beam_map_index (obs : WriterObs) (k : Nat) :
    (remove_numerical_beam obs k).analog_beams.map (fun ab => ab.index)
      = obs.analog_beams.map (fun ab => ab.index) := by
  unfold remove_numerical_beam updates_numbeams_indices
  dsimp only
  rw [updateNumbeamsIndicesFrom_map_index, removeNumBeamIn_map_index]

/-- After removal, the flattened numerical beams are the old ones minus
position k, renumbered consecutively from zero. -/
theorem remove_numerical_beam_flatten (obs : WriterObs) (k : Nat) :
    flattenNum (remove_numerical_beam obs k).analog_beams
      = reindexFrom 0 (delAt (flattenNum obs.analog_beams) k) := by
  unfold remove_numerical_beam updates_numbeams_indices
  dsimp only
  rw [updateNumbeamsIndicesFrom_flatten, removeNumBeamIn_flatten]

/-- C8 (confirmed): in a hierarchy whose numerical-beam indices are the
canonical flattened positions and whose noBeam back-references point at
existing analog beams, removing the numerical beam at flattened position k
moves every beam of original index j above k to position j-1 with its index
decreased by exactly one, and every surviving beam's noBeam still equals the
index of an existing analog beam (removal never renumbers analog beams). -/
theorem c8_remove_numerical_beam_renumbers (obs : WriterObs) (k : Nat)
    (hidx : (flattenNum obs.analog_beams).map (fun nb => nb.index)
        = List.range (flattenNum obs.analog_beams).length)
    (href : ∀ nb ∈ flattenNum obs.analog_beams,
        nb.noBeam ∈ obs.analog_beams.map (fun ab => ab.index))
    (_hk : k < (flattenNum obs.analog_beams).length) :
    (∀ j nb, k < j → (flattenNum obs.analog_beams)[j]? = some nb →
        (flattenNum (remove_numerical_beam obs k).analog_beams)[j - 1]?
          = some { nb with index := nb.index - 1 })
    ∧ (∀ nb ∈ flattenNum (remove_numerical_beam obs k).analog_beams,
        nb.noBeam ∈ (remove_numerical_beam obs k).analog_beams.map (fun ab => ab.index)) := by
  constructor
  · intro j nb hkj hj
    have hjlt : j < (flattenNum obs.analog_beams).length := (List.getElem?_eq_some.mp hj).1
    have hnbidx : nb.index = j := by
      have h1 := congrArg (fun l => l[j]?) hidx
      dsimp only at h1
      rw [List.getElem?_map, hj, List.getElem?_range hjlt] at h1
      exact Option.some.inj h1
    have hj1 : j - 1 + 1 = j := by omega
    rw [remove_numerical_beam_flatten, reindexFrom_getElem?,
      delAt_getElem?_ge _ _ _ (by omega), hj1, hj]
    rw [Option.map_some', Option.some.injEq]
    rw [hnbidx]
    congr 1
    omega
  · intro nb hnb
    rw [remove_numerical_beam_flatten] at hnb
    obtain ⟨nb0, hmem0, hnoBeam⟩ := reindexFrom_mem 0 _ nb hnb
    have hmem1 : nb0 ∈ flattenNum obs.analog_beams := delAt_subset _ k nb0 hmem0
    rw [remove_numerical_beam_map_index, hnoBeam]
    exact href nb0 hmem1

/-- C8 witness hierarchy: two analog beams, three numerical beams. -/
def obs8 : WriterObs :=
  { analog_beams :=
      [{ index := 0, numerical_beams :=
          [{ index := 0, noBeam := 0, config := [] },
           { index := 1, noBeam := 0, config := [] }] },
       { index := 1, numerical_beams :=
          [{ index := 2, noBeam := 1, config := [] }] }] }

/-- C8 witness: the theorem at the concrete hierarchy, removing position 1. -/
theorem c8_witness :
    ((flattenNum obs8.analog_beams).map (fun nb => nb.index)
        = List.range (flattenNum obs8.analog_beams).length)
    ∧ (∀ nb ∈ flattenNum obs8.analog_beams,
        nb.noBeam ∈ obs8.analog_beams.map (fun ab => ab.index))
    ∧ 1 < (flattenNum obs8.analog_beams).length
    ∧ ((∀ j nb, 1 < j → (flattenNum obs8.analog_beams)[j]? = some nb →
          (flattenNum (remove_numerical_beam obs8 1).analog_beams)[j - 1]?
            = some { nb with index := nb.index - 1 })
        ∧ (∀ nb ∈ flattenNum (remove_numerical_beam obs8 1).analog_beams,
            nb.noBeam ∈ (remove_numerical_beam obs8 1).analog_beams.map (fun ab => ab.index))) :=
  ⟨by decide, by decide, by decide,
    c8_remove_numerical_beam_renumbers obs8 1 (by decide) (by decide) (by decide)⟩

/-! ### C10: frame property of per-block configuration writes -/

theorem setAt_getElem?_ne {α : Type} (l : List α) (a b : Nat) (v : α) (h : a ≠ b) :
    (setAt l a v)[b]? = l[b]? := by
  induction l generalizing a b with
  | nil => rfl
  | cons x xs ih =>
    cases a with
    | zero =>
      cases b with
      | zero => exact absurd rfl h
      | succ b => simp [setAt]
    | succ a =>
      cases b with
      | zero => simp [setAt]
      | succ b =>
        simp only [setAt, List.getElem?_cons_succ]
        exact ih a b (by omega)

theorem setAt_getElem?_eq {α : Type} (l : List α) (a : Nat) (v : α) (h : a < l.length) :
    (setAt l a v)[a]? = some v := by
  induction l generalizing a with
  | nil => simp at h
  | cons x xs ih =>
    cases a with
    | zero => simp [setAt]
    | succ a =>
      simp only [setAt, List.getElem?_cons_succ]
      exact ih a (by simpa using h)

theorem dictGet?_cons {α : Type} (p : Str × α) (rest : List (Str × α)) (k : Str) :
    dictGet? (p :: rest) k = if p.1 == k then some p.2 else dictGet? rest k := by
  by_cases h : (p.1 == k) = true
  · unfold dictGet?
    rw [@List.find?_cons_of_pos (Str × α) (fun q => q.1 == k) p rest h, if_pos h]
    rfl
  · unfold dictGet?
    rw [@List.find?_cons_of_neg (Str × α) (fun q => q.1 == k) p rest (by simpa using h),
      if_neg h]

/-- Updating the entry at one key leaves every other key's lookup unchanged. -/
theorem dictGet?_map_update_ne (config : List (Str × FieldSpec)) (key k2 : Str)
    (g : FieldSpec → FieldSpec) (h : (key == k2) = false) :
    dictGet? (config.map (fun p => if p.1 == key then (p.1, g p.2) else p)) k2
      = dictGet? config k2 := by
  induction config with
  | nil => rfl
  | cons p rest ih =>
    by_cases hp : (p.1 == key) = true
    · rw [List.map_cons, if_pos hp, dictGet?_cons, dictGet?_cons]
      dsimp only
      have hne : (p.1 == k2) = false := by
        have h1 : p.1 = key := eq_of_beq hp
        have h2 : key ≠ k2 := by simpa using h
        exact beq_eq_false_iff_ne.mpr (h1 ▸ h2)
      rw [hne]
      simp only [Bool.false_eq_true, if_false]
      exact ih
    · rw [List.map_cons, if_neg hp, dictGet?_cons, dictGet?_cons, ih]

/-- Updating the entry at a present key makes its lookup return the updated
field specification. -/
theorem dictGet?_map_update_eq (config : List (Str × FieldSpec)) (key : Str)
    (g : FieldSpec → FieldSpec) (spec : FieldSpec)
    (h : dictGet? config key = some spec) :
    dictGet? (config.map (fun p => if p.1 == key then (p.1, g p.2) else p)) key
      = some (g spec) := by
  induction config with
  | nil => exact absurd h (by simp [dictGet?])
  | cons p rest ih =>
    by_cases hp : (p.1 == key) = true
    · rw [dictGet?_cons, if_pos hp, Option.some.injEq] at h
      rw [List.map_cons, if_pos hp, dictGet?_cons]
      dsimp only
      rw [if_pos hp, h]
    · rw [dictGet?_cons, if_neg hp] at h
      rw [List.map_cons, if_neg hp, dictGet?_cons, if_neg hp]
      exact ih h

theorem dictGet?_eq_none_of_not_any {α : Type} (config : List (Str × α)) (k : Str)
    (h : config.any (fun p => p.1 == k) = false) : dictGet? config k = none := by
  unfold dictGet?
  rw [List.find?_eq_none.mpr (List.any_eq_false.mp h)]
  rfl

/-- No two blocks of a well-formed state alias one heap cell. -/
theorem wf_addr_ne (st : WriterState) (hw : wfWriterState st) (i j : Nat)
    (hij : i ≠ j) (bi bj : BlockRef)
    (hbi : st.blocks[i]? = some bi) (hbj : st.blocks[j]? = some bj) :
    bi.addr ≠ bj.addr := by
  intro he
  have h1 : (st.blocks.map (fun b => b.addr))[i]? = some bi.addr := by
    rw [List.getElem?_map, hbi]
    rfl
  have h2 : (st.blocks.map (fun b => b.addr))[j]? = some bj.addr := by
    rw [List.getElem?_map, hbj]
    rfl
  have hilt : i < (st.blocks.map (fun b => b.addr)).length :=
    (List.getElem?_eq_some.mp h1).1
  exact hij (List.getElem?_inj hilt hw.2 (by rw [h1, h2, he]))

/-- The deepcopy discipline of _ParsetBlock.__init__ preserves
well-formedness: a fresh allocation can alias no existing block. -/
theorem newBlock_wf (registry : Str → BlockConfig) (st : WriterState) (field : Str)
    (hw : wfWriterState st) : wfWriterState (newBlock registry st field) := by
  constructor
  · intro b hb
    dsimp only [newBlock] at hb ⊢
    rw [List.mem_append] at hb
    cases hb with
    | inl h =>
      have h1 := hw.1 b h
      simp only [List.length_append, List.length_cons, List.length_nil]
      omega
    | inr h =>
      simp only [List.mem_singleton] at h
      subst h
      simp only [List.length_append, List.length_cons, List.length_nil]
      omega
  · dsimp only [newBlock]
    rw [List.map_append, List.nodup_append]
    refine ⟨hw.2, List.nodup_singleton _, fun a ha hb => ?_⟩
    simp only [List.map_cons, List.map_nil, List.mem_singleton] at hb
    subst hb
    obtain ⟨b, hbmem, hba⟩ := List.mem_map.mp ha
    have h1 := hw.1 b hbmem
    omega

/-- C10 (confirmed): writing one key on one block changes only that block's
own configuration entry for that key (its value and modified flag): the block
list is unchanged, every other block's configuration dictionary is unchanged
(no aliasing, by the deepcopy freshness of wfWriterState), every other key of
the written block is unchanged, and the written key holds the converted value
with its modified flag set.  The static registry is an immutable function and
is untouched by construction. -/
theorem c10_modify_frame (st : WriterState) (i j : Nat) (key : Str) (v : PropValue)
    (hw : wfWriterState st) (hij : i ≠ j) :
    (modifyProperty st i key v).blocks = st.blocks
    ∧ blockConfig? (modifyProperty st i key v) j = blockConfig? st j
    ∧ (∀ k2, (key == k2) = false →
        dictGet? ((blockConfig? (modifyProperty st i key v) i).getD []) k2
          = dictGet? ((blockConfig? st i).getD []) k2)
    ∧ (∀ spec, dictGet? ((blockConfig? st i).getD []) key = some spec →
        dictGet? ((blockConfig? (modifyProperty st i key v) i).getD []) key
          = some { spec with value := formatValue v, modified := true }) := by
  unfold modifyProperty
  cases hbi : st.blocks[i]? with
  | none =>
    dsimp only
    refine ⟨rfl, rfl, fun _ _ => rfl, fun spec hs => ?_⟩
    simp only [blockConfig?, hbi] at hs
    exact absurd hs (by simp [dictGet?])
  | some b =>
    dsimp only
    cases hc : st.heap[b.addr]? with
    | none =>
      dsimp only
      refine ⟨rfl, rfl, fun _ _ => rfl, fun spec hs => ?_⟩
      simp only [blockConfig?, hbi, hc] at hs
      exact absurd hs (by simp [dictGet?])
    | some config =>
      dsimp only
      by_cases hany : (config.any (fun p => p.1 == key)) = true
      · rw [if_pos hany]
        have hblt : b.addr < st.heap.length := hw.1 b (List.getElem?_mem hbi)
        refine ⟨rfl, ?_, ?_, ?_⟩
        · simp only [blockConfig?]
          cases hbj : st.blocks[j]? with
          | none => rfl
          | some bj =>
            dsimp only
            exact setAt_getElem?_ne st.heap b.addr bj.addr _
              (wf_addr_ne st hw i j hij b bj hbi hbj)
        · intro k2 hk2
          simp only [blockConfig?, hbi, hc]
          rw [setAt_getElem?_eq st.heap b.addr _ hblt]
          dsimp only [Option.getD]
          exact dictGet?_map_update_ne config key k2
            (fun s => { s with value := formatValue v, modified := true }) hk2
        · intro spec hs
          simp only [blockConfig?, hbi, hc] at hs
          dsimp only [Option.getD] at hs
          simp only [blockConfig?, hbi]
          rw [setAt_getElem?_eq st.heap b.addr _ hblt]
          dsimp only [Option.getD]
          exact dictGet?_map_update_eq config key
            (fun s => { s with value := formatValue v, modified := true }) spec hs
      · rw [if_neg hany]
        refine ⟨rfl, rfl, fun _ _ => rfl, fun spec hs => ?_⟩
        simp only [blockConfig?, hbi, hc] at hs
        dsimp only [Option.getD] at hs
        have hanyf : (config.any (fun p => p.1 == key)) = false :=
          Bool.eq_false_iff.mpr hany
        have hnone : dictGet? config key = none :=
          dictGet?_eq_none_of_not_any config key hanyf
        rw [hnone] at hs
        exact Option.noConfusion hs

/-- A concrete registry modelled from the spec's field schema shape, used by
the C10 witness. -/
def reg10 : Str → BlockConfig := fun f =>
  if f = "Observation".data then
    [("title".data,
       { value := "untitled".data, unit := [], required := true,
         modified := false, pattern := none }),
     ("topic".data,
       { value := [], unit := [], required := false,
         modified := false, pattern := none })]
  else
    [("nri_receivers".data,
       { value := [], unit := [], required := false,
         modified := false, pattern := none })]

/-- Two blocks allocated from the registry, as ParsetUser.__init__ does. -/
def st10 : WriterState :=
  newBlock reg10 (newBlock reg10 { heap := [], blocks := [] } ("Observation".data))
    ("Output".data)

/-- C10 witness: the frame theorem at the two-block state, writing the title
key of block 0. -/
theorem c10_witness :
    wfWriterState st10
    ∧ ((modifyProperty st10 0 ("title".data) (PropValue.strVal ("My obs".data))).blocks
          = st10.blocks
        ∧ blockConfig? (modifyProperty st10 0 ("title".data)
            (PropValue.strVal ("My obs".data))) 1 = blockConfig? st10 1
        ∧ (∀ k2, (("title".data : Str) == k2) = false →
            dictGet? ((blockConfig? (modifyProperty st10 0 ("title".data)
                (PropValue.strVal ("My obs".data))) 0).getD []) k2
              = dictGet? ((blockConfig? st10 0).getD []) k2)
        ∧ (∀ spec, dictGet? ((blockConfig? st10 0).getD []) ("title".data) = some spec →
            dictGet? ((blockConfig? (modifyProperty st10 0 ("title".data)
                (PropValue.strVal ("My obs".data))) 0).getD []) ("title".data)
              = some { spec with
                       value := formatValue (PropValue.strVal ("My obs".data)),
                       modified := true })) :=
  ⟨⟨by decide, by decide⟩,
    c10_modify_frame st10 0 1 ("title".data) (PropValue.strVal ("My obs".data))
      ⟨by decide, by decide⟩ (by decide)⟩

end NenuParset
